import Mathlib

/-!
Verification of the AI tool-executor pipeline of `lucis-app`
(`src/lucis-app/server/tools/ai-executor.ts`, `createAIToolExecutorTool`).

The `execute` body of that tool receives a raw structured reply from the
generation backend (`aiResponse.object`), coerces its fields with JavaScript
semantics (`String(x)`, `x || \x7b\x7d`), performs two precondition checks, and
then delegates to the execution capability `env.TOOLS.DECO_TOOL_RUN_TOOL`,
normalizing the outcome into an invocation record.

We embed the JavaScript value model shallowly: `JSValue` is a finite tree of
JSON-like values plus `undefined`; `jsToString` models the `String(...)`
coercion, `truthy` models JavaScript truthiness, and `jsonStringify` models
`JSON.stringify`.
-/

/-- A JavaScript value as it can appear in the structured generation reply or
in an execution outcome.  `undefined` represents both the value `undefined`
and an absent field (`obj?.field` on a missing field yields `undefined`).
Numbers are modelled as integers, which covers every value the claims
exercise. -/
inductive JSValue where
  | undefined
  | null
  | bool (b : Bool)
  | num (n : Int)
  | str (s : String)
  | arr (elems : List JSValue)
  | obj (fields : List (String × JSValue))

/-- JavaScript truthiness: `undefined`, `null`, `false`, `0` and the empty
string are falsy; every other value (including every object and array) is
truthy. -/
def truthy : JSValue → Bool
  | JSValue.undefined => false
  | JSValue.null => false
  | JSValue.bool b => b
  | JSValue.num n => n != 0
  | JSValue.str s => s != ""
  | JSValue.arr _ => true
  | JSValue.obj _ => true

mutual
/-- The JavaScript `String(x)` coercion.  `String(undefined)` is the string
"undefined" (not the empty string), arrays stringify as their elements joined
by commas with `null`/`undefined` elements rendered empty, and plain objects
stringify as "[object Object]". -/
def jsToString : JSValue → String
  | JSValue.undefined => "undefined"
  | JSValue.null => "null"
  | JSValue.bool b => if b then "true" else "false"
  | JSValue.num n => toString n
  | JSValue.str s => s
  | JSValue.arr elems => jsArrToString elems
  | JSValue.obj _ => "[object Object]"

/-- Array-to-string: elements joined by commas (`Array.prototype.toString`). -/
def jsArrToString : List JSValue → String
  | [] => ""
  | [v] => jsArrElem v
  | v :: vs => jsArrElem v ++ "," ++ jsArrToString vs

/-- A single array element under `Array.prototype.toString`: `null` and
`undefined` render as the empty string, everything else as `String(x)`. -/
def jsArrElem : JSValue → String
  | JSValue.undefined => ""
  | JSValue.null => ""
  | JSValue.bool b => if b then "true" else "false"
  | JSValue.num n => toString n
  | JSValue.str s => s
  | JSValue.arr elems => jsArrToString elems
  | JSValue.obj _ => "[object Object]"
end

/-- Escape one character for a JSON string literal. -/
def jsonQuoteChar (c : Char) : String :=
  if c = '"' then "\\\"" else if c = '\\' then "\\\\"
  else if c = '\n' then "\\n" else String.singleton c

/-- Render a string as a JSON string literal. -/
def jsonQuote (s : String) : String :=
  "\"" ++ String.join (s.data.map jsonQuoteChar) ++ "\""

mutual
/-- The JavaScript `JSON.stringify(x)` serialization; `JSON.stringify` of
`undefined` itself returns `undefined`, modelled as `none`. -/
def jsonStringify : JSValue → Option String
  | JSValue.undefined => none
  | JSValue.null => some "null"
  | JSValue.bool b => some (if b then "true" else "false")
  | JSValue.num n => some (toString n)
  | JSValue.str s => some (jsonQuote s)
  | JSValue.arr elems => some ("[" ++ String.intercalate "," (jsonArr elems) ++ "]")
  | JSValue.obj fields => some ("\x7b" ++ String.intercalate "," (jsonObj fields) ++ "\x7d")

/-- Array elements under `JSON.stringify`: `undefined` renders as `null`. -/
def jsonArr : List JSValue → List String
  | [] => []
  | v :: vs => (jsonStringify v).getD "null" :: jsonArr vs

/-- Object fields under `JSON.stringify`: fields whose value serializes to
`undefined` are skipped. -/
def jsonObj : List (String × JSValue) → List String
  | [] => []
  | (k, v) :: fs =>
    match jsonStringify v with
    | none => jsonObj fs
    | some s => (jsonQuote k ++ ":" ++ s) :: jsonObj fs
end

/-- Does `small` occur as a prefix of `big`?  Structural model of prefix
matching on character lists. -/
def listHasPrefix : List Char → List Char → Bool
  | [], _ => true
  | _ :: _, [] => false
  | c :: cs, d :: ds => c = d && listHasPrefix cs ds

/-- Does `needle` occur as a contiguous substring of the second argument?
Structural recursion over the haystack. -/
def listHasInfix (needle : List Char) : List Char → Bool
  | [] => needle.isEmpty
  | c :: t => listHasPrefix needle (c :: t) || listHasInfix needle t

/-- The JavaScript `s.includes(needle)` substring test. -/
def strIncludes (s needle : String) : Bool :=
  listHasInfix needle.data s.data

example : jsToString JSValue.undefined = "undefined" := by simp [jsToString]
example : jsToString (JSValue.str "abc") = "abc" := by simp [jsToString]
example : strIncludes "hello world" "lo wo" = true := by decide
example : strIncludes "hello world" "low" = false := by decide

/-- The raw structured reply from the generation backend (`aiResponse.object`
in `ai-executor.ts`).  Every field is an arbitrary JavaScript value; an absent
field is `JSValue.undefined`, which is exactly what the optional-chaining
reads `aiResponse.object?.field` produce. -/
structure RawReply where
  toolName : JSValue
  toolDescription : JSValue
  inputSchema : JSValue
  outputSchema : JSValue
  executeCode : JSValue
  input : JSValue
  reasoning : JSValue

/-- The argument handed to the execution capability
`env.TOOLS.DECO_TOOL_RUN_TOOL` (lines 155-164 of `ai-executor.ts`): the tool
object fields `name`, `description`, `inputSchema`, `outputSchema`, `execute`
together with the top-level `input`. -/
structure ToolCallRequest where
  name : String
  description : String
  inputSchema : JSValue
  outputSchema : JSValue
  execute : String
  input : JSValue

/-- The resolved value of a `DECO_TOOL_RUN_TOOL` call: an object with
optional `result` and `error` fields (absent = `undefined`). -/
structure ToolResult where
  result : JSValue
  error : JSValue

/-- A value thrown by the execution capability: either an `Error` instance
carrying a `message`, or any other JavaScript value (`instanceof Error` is
false for the latter). -/
inductive Thrown where
  | errorObj (message : String)
  | value (v : JSValue)

/-- What awaiting the execution capability does: resolve to a `ToolResult`,
or throw. -/
inductive ExecOutcome where
  | ok (tr : ToolResult)
  | thrown (t : Thrown)

/-- The record returned by the tool's `execute` on the non-aborting paths
(lines 169-196): `reasoning`, `toolUri`, `generatedInput` always set;
`result` is a JavaScript value (`undefined` when absent); `error` is either
`undefined` (`none`) or a string. -/
structure InvocationRecord where
  reasoning : String
  toolUri : String
  generatedInput : JSValue
  result : JSValue
  error : Option String

/-- The outcome of one call of the tool's `execute` body: either a thrown
`Error` (the two precondition failures, lines 140 and 146-148) carrying its
message, or a returned `InvocationRecord`. -/
inductive ExecuteResult where
  | failure (message : String)
  | success (record : InvocationRecord)

/-- The `x || \x7b\x7d` defaulting idiom used for `inputSchema`,
`outputSchema` and `input` (lines 133-136): a falsy value is replaced by the
empty object, any truthy value — object or not — passes through unchanged. -/
def orEmptyObject (v : JSValue) : JSValue :=
  if truthy v then v else JSValue.obj []

/-- Message of the missing-field precondition failure (line 140). -/
def missingCodeMessage : String := "Failed to generate tool code"

/-- The needle of the format check (line 145):
`executeCode.includes("export default async function")`. -/
def formatCheckNeedle : String := "export default async function"

/-- The required entry-point prefix quoted in the spec and in the format
error message: `export default async function (input, ctx) \x7b`. -/
def requiredEntryPrefix : String :=
  "export default async function (input, ctx) \x7b"

/-- Message of the format precondition failure (lines 146-148). -/
def formatErrorMessage : String :=
  "Generated code is not in the correct ES module format. Code must start with \x27export default async function (input, ctx) \x7b\x27"

/-- Coercion of the raw reply into the tool object handed to the execution
capability (lines 131-137 and 155-163): `String(...)` on `toolName`,
`toolDescription`, `executeCode`; `|| \x7b\x7d` on `inputSchema`,
`outputSchema`, `input`. -/
def buildToolCallRequest (reply : RawReply) : ToolCallRequest :=
  { name := jsToString reply.toolName
    description := jsToString reply.toolDescription
    inputSchema := orEmptyObject reply.inputSchema
    outputSchema := orEmptyObject reply.outputSchema
    execute := jsToString reply.executeCode
    input := orEmptyObject reply.input }

/-- The message stored when a thrown value is caught (lines 188-195):
`error instanceof Error ? error.message : "Unknown error occurred"`. -/
def thrownMessage : Thrown → String
  | Thrown.errorObj m => m
  | Thrown.value _ => "Unknown error occurred"

/-- Normalization of the execution outcome into the returned record
(lines 166-196): a structured `toolResult.error` that is truthy is
serialized with `JSON.stringify` into `error` with `result` undefined;
otherwise the success branch returns `toolResult.result` verbatim with
`error` undefined; a thrown value is caught and converted into an `error`
string. -/
def reconcileOutcome (reply : RawReply) (out : ExecOutcome) : InvocationRecord :=
  let toolName := jsToString reply.toolName
  let reasoning := jsToString reply.reasoning
  let generatedInput := orEmptyObject reply.input
  match out with
  | ExecOutcome.thrown t =>
    { reasoning := reasoning
      toolUri := "DYNAMIC::" ++ toolName
      generatedInput := generatedInput
      result := JSValue.undefined
      error := some (thrownMessage t) }
  | ExecOutcome.ok tr =>
    if truthy tr.error then
      { reasoning := reasoning
        toolUri := "DYNAMIC::" ++ toolName
        generatedInput := generatedInput
        result := JSValue.undefined
        error := jsonStringify tr.error }
    else
      { reasoning := reasoning
        toolUri := "DYNAMIC::" ++ toolName
        generatedInput := generatedInput
        result := tr.result
        error := none }

/-- Shallow embedding of the `execute` body of `createAIToolExecutorTool`
(lines 131-196 of `src/lucis-app/server/tools/ai-executor.ts`), parameterized
by the execution capability `runTool` (`env.TOOLS.DECO_TOOL_RUN_TOOL`) and
the raw generation reply.  Returns the outcome together with the list of
calls made to the execution capability, so that "zero calls" properties can
be stated.  The two precondition checks are, in source order:
`if (!executeCode || !toolName)` (line 139) and
`if (!executeCode.includes("export default async function"))` (line 145). -/
def createAIToolExecutorTool (runTool : ToolCallRequest → ExecOutcome)
    (reply : RawReply) : ExecuteResult × List ToolCallRequest :=
  let executeCode := jsToString reply.executeCode
  let toolName := jsToString reply.toolName
  if executeCode = "" ∨ toolName = "" then
    (ExecuteResult.failure missingCodeMessage, [])
  else if strIncludes executeCode formatCheckNeedle = false then
    (ExecuteResult.failure formatErrorMessage, [])
  else
    let req := buildToolCallRequest reply
    (ExecuteResult.success (reconcileOutcome reply (runTool req)), [req])

/-- The conjunction of the two precondition checks (lines 139-149): the
coerced `executeCode` and `toolName` are non-empty and `executeCode` contains
the format-check needle. -/
def passesPreconditions (reply : RawReply) : Bool :=
  !(jsToString reply.executeCode == "") && !(jsToString reply.toolName == "")
    && strIncludes (jsToString reply.executeCode) formatCheckNeedle

theorem run_of_passes (runTool : ToolCallRequest → ExecOutcome) (reply : RawReply)
    (h : passesPreconditions reply = true) :
    createAIToolExecutorTool runTool reply =
      (ExecuteResult.success (reconcileOutcome reply (runTool (buildToolCallRequest reply))),
       [buildToolCallRequest reply]) := by
  simp only [passesPreconditions, Bool.and_eq_true, Bool.not_eq_true',
    beq_eq_false_iff_ne, ne_eq] at h
  obtain ⟨⟨h1, h2⟩, h3⟩ := h
  simp only [createAIToolExecutorTool]
  rw [if_neg (by tauto), if_neg (by simp [h3])]

theorem run_of_missing (runTool : ToolCallRequest → ExecOutcome) (reply : RawReply)
    (h : jsToString reply.executeCode = "" ∨ jsToString reply.toolName = "") :
    createAIToolExecutorTool runTool reply = (ExecuteResult.failure missingCodeMessage, []) := by
  simp only [createAIToolExecutorTool]
  rw [if_pos h]

theorem run_of_format (runTool : ToolCallRequest → ExecOutcome) (reply : RawReply)
    (h1 : ¬(jsToString reply.executeCode = "" ∨ jsToString reply.toolName = ""))
    (h2 : strIncludes (jsToString reply.executeCode) formatCheckNeedle = false) :
    createAIToolExecutorTool runTool reply = (ExecuteResult.failure formatErrorMessage, []) := by
  simp only [createAIToolExecutorTool]
  rw [if_neg h1, if_pos h2]

theorem fail_of_not_passes (runTool : ToolCallRequest → ExecOutcome) (reply : RawReply)
    (h : passesPreconditions reply = false) :
    ∃ msg, createAIToolExecutorTool runTool reply = (ExecuteResult.failure msg, []) ∧
      (msg = missingCodeMessage ∨ msg = formatErrorMessage) := by
  by_cases hm : jsToString reply.executeCode = "" ∨ jsToString reply.toolName = ""
  · exact ⟨missingCodeMessage, run_of_missing runTool reply hm, Or.inl rfl⟩
  · push_neg at hm
    have h2 : strIncludes (jsToString reply.executeCode) formatCheckNeedle = false := by
      simp only [passesPreconditions, Bool.and_eq_false_iff, Bool.not_eq_false',
        beq_iff_eq] at h
      rcases h with (h | h) | h
      · exact absurd h hm.1
      · exact absurd h hm.2
      · simpa using h
    exact ⟨formatErrorMessage, run_of_format runTool reply (by tauto) h2, Or.inr rfl⟩

theorem success_shape (runTool : ToolCallRequest → ExecOutcome) (reply : RawReply)
    (r : InvocationRecord)
    (h : (createAIToolExecutorTool runTool reply).1 = ExecuteResult.success r) :
    r = reconcileOutcome reply (runTool (buildToolCallRequest reply)) ∧
      passesPreconditions reply = true := by
  by_cases hp : passesPreconditions reply = true
  · rw [run_of_passes runTool reply hp] at h
    exact ⟨(ExecuteResult.success.injEq _ _ ▸ h).symm, hp⟩
  · obtain ⟨msg, hmsg, _⟩ :=
      fail_of_not_passes runTool reply (Bool.not_eq_true _ ▸ hp)
    rw [hmsg] at h
    exact absurd h (by simp)

theorem failure_cases (runTool : ToolCallRequest → ExecOutcome) (reply : RawReply)
    (msg : String)
    (h : (createAIToolExecutorTool runTool reply).1 = ExecuteResult.failure msg) :
    (msg = missingCodeMessage ∨ msg = formatErrorMessage) ∧
      (createAIToolExecutorTool runTool reply).2 = [] ∧
      passesPreconditions reply = false := by
  by_cases hp : passesPreconditions reply = true
  · rw [run_of_passes runTool reply hp] at h
    exact absurd h (by simp)
  · have hp' : passesPreconditions reply = false := Bool.not_eq_true _ ▸ hp
    obtain ⟨msg', hmsg, hor⟩ := fail_of_not_passes runTool reply hp'
    rw [hmsg] at h
    have : msg' = msg := by simpa using h
    subst this
    exact ⟨hor, by rw [hmsg], hp'⟩

theorem reconcile_toolUri (reply : RawReply) (out : ExecOutcome) :
    (reconcileOutcome reply out).toolUri = "DYNAMIC::" ++ jsToString reply.toolName := by
  cases out with
  | thrown t => rfl
  | ok tr =>
    by_cases h : truthy tr.error
    · simp [reconcileOutcome, h]
    · simp [reconcileOutcome, h]

theorem reconcile_reasoning (reply : RawReply) (out : ExecOutcome) :
    (reconcileOutcome reply out).reasoning = jsToString reply.reasoning := by
  cases out with
  | thrown t => rfl
  | ok tr =>
    by_cases h : truthy tr.error
    · simp [reconcileOutcome, h]
    · simp [reconcileOutcome, h]

theorem reconcile_exclusive (reply : RawReply) (out : ExecOutcome) :
    (reconcileOutcome reply out).result = JSValue.undefined ∨
      (reconcileOutcome reply out).error = none := by
  cases out with
  | thrown t => exact Or.inl rfl
  | ok tr =>
    by_cases h : truthy tr.error
    · exact Or.inl (by simp [reconcileOutcome, h])
    · exact Or.inr (by simp [reconcileOutcome, h])

theorem listHasPrefix_trans : ∀ (a b c : List Char),
    listHasPrefix a b = true → listHasPrefix b c = true → listHasPrefix a c = true
  | [], _, _, _, _ => rfl
  | _ :: _, [], _, h, _ => by simp [listHasPrefix] at h
  | _ :: _, _ :: _, [], _, h2 => by simp [listHasPrefix] at h2
  | x :: xs, y :: ys, z :: zs, h1, h2 => by
    simp only [listHasPrefix, Bool.and_eq_true, decide_eq_true_eq] at h1 h2 ⊢
    exact ⟨h1.1.trans h2.1, listHasPrefix_trans xs ys zs h1.2 h2.2⟩

theorem listHasInfix_mono (a b : List Char) (hab : listHasPrefix a b = true) :
    ∀ hay : List Char, listHasInfix b hay = true → listHasInfix a hay = true := by
  intro hay
  induction hay with
  | nil =>
    intro h
    simp only [listHasInfix, List.isEmpty_iff] at h ⊢
    subst h
    cases a with
    | nil => rfl
    | cons x xs => simp [listHasPrefix] at hab
  | cons c t ih =>
    intro h
    simp only [listHasInfix, Bool.or_eq_true] at h ⊢
    rcases h with h | h
    · exact Or.inl (listHasPrefix_trans a b (c :: t) hab h)
    · exact Or.inr (ih h)

theorem listHasInfix_nil_of_hay_nil (needle : List Char)
    (h : listHasInfix needle [] = true) : needle = [] := by
  simpa [listHasInfix, List.isEmpty_iff] using h

/-- The `executeCode` of the spec's Scenario A mocked reply. -/
def scenarioACode : String :=
  "export default async function (input, ctx) \x7b return \x7btodos:[]\x7d \x7d"

/-- The mocked reply of the spec's Scenario A. -/
def replyA : RawReply :=
  { toolName := JSValue.str "LIST"
    toolDescription := JSValue.str "d"
    inputSchema := JSValue.obj []
    outputSchema := JSValue.obj []
    executeCode := JSValue.str scenarioACode
    input := JSValue.obj []
    reasoning := JSValue.str "r" }

/-- Execution capability of Scenario A: resolves with an object whose
`todos` field is the empty array and no error. -/
def capListTodos : ToolCallRequest → ExecOutcome :=
  fun _ => ExecOutcome.ok
    { result := JSValue.obj [("todos", JSValue.arr [])], error := JSValue.undefined }

/-- Execution capability that always resolves with a null result and no
error. -/
def capOkNull : ToolCallRequest → ExecOutcome :=
  fun _ => ExecOutcome.ok { result := JSValue.null, error := JSValue.undefined }

example : passesPreconditions replyA = true := by
  simp only [passesPreconditions, replyA, jsToString]
  decide

example : (createAIToolExecutorTool capListTodos replyA).1 =
    ExecuteResult.success
      { reasoning := "r", toolUri := "DYNAMIC::LIST",
        generatedInput := JSValue.obj [],
        result := JSValue.obj [("todos", JSValue.arr [])], error := none } := by
  rw [run_of_passes capListTodos replyA (by simp only [passesPreconditions, replyA, jsToString]; decide)]
  simp [reconcileOutcome, capListTodos, replyA, jsToString, orEmptyObject, truthy]

/-- A reply whose `executeCode` contains the format-check needle but not the
full required entry-point prefix (the function is named, so the text after
"function" is " foo(input, ctx)" rather than " (input, ctx)"). -/
def replyNoPRefixCode : RawReply :=
  { replyA with
    toolName := JSValue.str "T"
    executeCode := JSValue.str
      "export default async function foo(input, ctx) \x7b return 1; \x7d" }

/-- A reply identical to Scenario A except that `toolName` is absent. -/
def replyNoName : RawReply :=
  { replyA with toolName := JSValue.undefined }

/-- Scenario B reply: `executeCode` has no default export at all. -/
def replyB : RawReply :=
  { replyA with executeCode := JSValue.str "function foo()\x7b\x7d" }

/-- A reply identical to Scenario A except that `inputSchema` is the string
"abc" — a truthy non-object value. -/
def replyStrSchema : RawReply :=
  { replyA with inputSchema := JSValue.str "abc" }

/-- Scenario D reply: `inputSchema` and `outputSchema` are absent. -/
def replyD : RawReply :=
  { replyA with inputSchema := JSValue.undefined, outputSchema := JSValue.undefined }

/-- A reply identical to Scenario A except that `toolDescription` and
`reasoning` are absent. -/
def replyNoMeta : RawReply :=
  { replyA with toolDescription := JSValue.undefined, reasoning := JSValue.undefined }

/-- A reply identical to Scenario A except that `executeCode` is the empty
string. -/
def replyEmptyCode : RawReply :=
  { replyA with executeCode := JSValue.str "" }

/-- Execution capability that throws the bare string value "network down"
(not an `Error` instance). -/
def capThrowsBareString : ToolCallRequest → ExecOutcome :=
  fun _ => ExecOutcome.thrown (Thrown.value (JSValue.str "network down"))

/-- C1 counterexample: `replyNoPRefixCode.executeCode` omits the required
entry-point prefix `export default async function (input, ctx) \x7b`, yet
the operation does not abort: the execution capability receives one call and
a success record is returned. -/
theorem C1_counterexample :
    strIncludes (jsToString replyNoPRefixCode.executeCode) requiredEntryPrefix = false ∧
    (createAIToolExecutorTool capOkNull replyNoPRefixCode).2.length = 1 ∧
    (createAIToolExecutorTool capOkNull replyNoPRefixCode).1 =
      ExecuteResult.success
        { reasoning := "r", toolUri := "DYNAMIC::T",
          generatedInput := JSValue.obj [],
          result := JSValue.null, error := none } := by
  refine ⟨?_, ?_, ?_⟩
  · simp only [replyNoPRefixCode, replyA, jsToString]
    decide
  · rw [run_of_passes capOkNull replyNoPRefixCode
      (by simp only [passesPreconditions, replyNoPRefixCode, replyA, jsToString]; decide)]
    rfl
  · rw [run_of_passes capOkNull replyNoPRefixCode
      (by simp only [passesPreconditions, replyNoPRefixCode, replyA, jsToString]; decide)]
    simp [reconcileOutcome, capOkNull, replyNoPRefixCode, replyA, jsToString,
      orEmptyObject, truthy]

/-- C1 (amended): for every reply whose coerced `executeCode` omits the
substring `export default async function` (the needle the code actually
checks), the operation aborts before execution with zero calls to the
execution capability; when the coerced `executeCode` and `toolName` are
non-empty, the failure message contains the exact required prefix
`export default async function (input, ctx) \x7b`. -/
theorem C1_omits_needle_aborts (runTool : ToolCallRequest → ExecOutcome) (reply : RawReply)
    (h : strIncludes (jsToString reply.executeCode) formatCheckNeedle = false) :
    (createAIToolExecutorTool runTool reply).2 = [] ∧
    ∃ msg, (createAIToolExecutorTool runTool reply).1 = ExecuteResult.failure msg ∧
      (jsToString reply.executeCode ≠ "" → jsToString reply.toolName ≠ "" →
        strIncludes msg requiredEntryPrefix = true) := by
  by_cases hm : jsToString reply.executeCode = "" ∨ jsToString reply.toolName = ""
  · rw [run_of_missing runTool reply hm]
    exact ⟨rfl, missingCodeMessage, rfl, by tauto⟩
  · rw [run_of_format runTool reply hm h]
    refine ⟨rfl, formatErrorMessage, rfl, fun _ _ => ?_⟩
    simp only [formatErrorMessage, requiredEntryPrefix, strIncludes]
    decide

/-- C1 witness: Scenario B's reply omits the needle; the amended theorem
applies and yields the abort with the prefix-bearing message. -/
theorem C1_witness :
    strIncludes (jsToString replyB.executeCode) formatCheckNeedle = false ∧
    ((createAIToolExecutorTool capOkNull replyB).2 = [] ∧
      ∃ msg, (createAIToolExecutorTool capOkNull replyB).1 = ExecuteResult.failure msg ∧
        (jsToString replyB.executeCode ≠ "" → jsToString replyB.toolName ≠ "" →
          strIncludes msg requiredEntryPrefix = true)) :=
  ⟨by simp only [replyB, replyA, jsToString]; decide,
   C1_omits_needle_aborts capOkNull replyB
     (by simp only [replyB, replyA, jsToString]; decide)⟩

/-- C2 counterexample: a reply whose `toolName` is absent does not abort —
`String(undefined)` is the non-empty string "undefined", so the pipeline
proceeds and the execution capability receives one call, returning a record
with toolUri `DYNAMIC::undefined`. -/
theorem C2_counterexample :
    replyNoName.toolName = JSValue.undefined ∧
    (createAIToolExecutorTool capOkNull replyNoName).2.length = 1 ∧
    (createAIToolExecutorTool capOkNull replyNoName).1 =
      ExecuteResult.success
        { reasoning := "r", toolUri := "DYNAMIC::undefined",
          generatedInput := JSValue.obj [],
          result := JSValue.null, error := none } := by
  refine ⟨rfl, ?_, ?_⟩
  · rw [run_of_passes capOkNull replyNoName
      (by simp only [passesPreconditions, replyNoName, replyA, jsToString]; decide)]
    rfl
  · rw [run_of_passes capOkNull replyNoName
      (by simp only [passesPreconditions, replyNoName, replyA, jsToString]; decide)]
    simp [reconcileOutcome, capOkNull, replyNoName, replyA, jsToString,
      orEmptyObject, truthy]

/-- C2 (amended): for every reply in which the coerced `toolName` or
`executeCode` is the empty string, or the `executeCode` field is absent, the
pipeline aborts with a hard failure — "Failed to generate tool code" or the
format error — and the execution capability is never invoked (an absent
`toolName` coerces to the non-empty string "undefined" and does not by
itself abort). -/
theorem C2_missing_fields_abort (runTool : ToolCallRequest → ExecOutcome) (reply : RawReply)
    (h : jsToString reply.executeCode = "" ∨ jsToString reply.toolName = "" ∨
      reply.executeCode = JSValue.undefined) :
    (createAIToolExecutorTool runTool reply).2 = [] ∧
    ∃ msg, (createAIToolExecutorTool runTool reply).1 = ExecuteResult.failure msg ∧
      (msg = missingCodeMessage ∨ msg = formatErrorMessage) := by
  rcases h with h | h | h
  · rw [run_of_missing runTool reply (Or.inl h)]
    exact ⟨rfl, missingCodeMessage, rfl, Or.inl rfl⟩
  · rw [run_of_missing runTool reply (Or.inr h)]
    exact ⟨rfl, missingCodeMessage, rfl, Or.inl rfl⟩
  · have hcode : jsToString reply.executeCode = "undefined" := by
      rw [h]; simp [jsToString]
    by_cases hn : jsToString reply.toolName = ""
    · rw [run_of_missing runTool reply (Or.inr hn)]
      exact ⟨rfl, missingCodeMessage, rfl, Or.inl rfl⟩
    · have hfmt : strIncludes (jsToString reply.executeCode) formatCheckNeedle = false := by
        rw [hcode]; decide
      rw [run_of_format runTool reply (by rw [hcode]; tauto) hfmt]
      exact ⟨rfl, formatErrorMessage, rfl, Or.inr rfl⟩

/-- C2 witness: the empty `executeCode` aborts with zero calls. -/
theorem C2_witness :
    jsToString replyEmptyCode.executeCode = "" ∧
    ((createAIToolExecutorTool capOkNull replyEmptyCode).2 = [] ∧
      ∃ msg, (createAIToolExecutorTool capOkNull replyEmptyCode).1 = ExecuteResult.failure msg ∧
        (msg = missingCodeMessage ∨ msg = formatErrorMessage)) :=
  ⟨by simp [replyEmptyCode, replyA, jsToString],
   C2_missing_fields_abort capOkNull replyEmptyCode
     (Or.inl (by simp [replyEmptyCode, replyA, jsToString]))⟩

/-- C3: once the two precondition checks pass, the entry point never throws —
for every behavior of the execution capability the result is a returned
record, and any thrown value is caught and converted into a record whose
`error` field is the string extracted by the catch handler, with no
`result`. -/
theorem C3_execution_never_throws (runTool : ToolCallRequest → ExecOutcome)
    (reply : RawReply) (t : Thrown)
    (h : passesPreconditions reply = true) :
    (∃ r, (createAIToolExecutorTool (fun _ => ExecOutcome.thrown t) reply).1 =
        ExecuteResult.success r ∧
        r.error = some (thrownMessage t) ∧ r.result = JSValue.undefined) ∧
    (∀ msg, (createAIToolExecutorTool runTool reply).1 = ExecuteResult.failure msg → False) := by
  constructor
  · rw [run_of_passes (fun _ => ExecOutcome.thrown t) reply h]
    exact ⟨reconcileOutcome reply (ExecOutcome.thrown t), rfl, rfl, rfl⟩
  · intro msg hmsg
    have := (failure_cases runTool reply msg hmsg).2.2
    rw [h] at this
    exact Bool.true_eq_false ▸ this

/-- C3 witness: Scenario A's reply passes the preconditions; a capability
throwing an `Error` with message "boom" yields a record with that error
string, and a resolving capability never produces a failure. -/
theorem C3_witness :
    passesPreconditions replyA = true ∧
    ((∃ r, (createAIToolExecutorTool
          (fun _ => ExecOutcome.thrown (Thrown.errorObj "boom")) replyA).1 =
        ExecuteResult.success r ∧
        r.error = some (thrownMessage (Thrown.errorObj "boom")) ∧
        r.result = JSValue.undefined) ∧
      (∀ msg, (createAIToolExecutorTool capOkNull replyA).1 =
          ExecuteResult.failure msg → False)) :=
  ⟨by simp only [passesPreconditions, replyA, jsToString]; decide,
   C3_execution_never_throws capOkNull replyA (Thrown.errorObj "boom")
     (by simp only [passesPreconditions, replyA, jsToString]; decide)⟩

/-- C4 counterexample: when the execution capability throws the bare string
value "network down" (not an `Error` instance), the record's error is
"Unknown error occurred", not "network down" — `instanceof Error` fails, so
the catch handler discards the thrown value's content. -/
theorem C4_counterexample :
    (createAIToolExecutorTool capThrowsBareString replyA).1 =
      ExecuteResult.success
        { reasoning := "r", toolUri := "DYNAMIC::LIST",
          generatedInput := JSValue.obj [],
          result := JSValue.undefined,
          error := some "Unknown error occurred" } ∧
    (some "Unknown error occurred" : Option String) ≠ some "network down" := by
  constructor
  · rw [run_of_passes capThrowsBareString replyA
      (by simp only [passesPreconditions, replyA, jsToString]; decide)]
    simp [reconcileOutcome, capThrowsBareString, replyA, jsToString,
      orEmptyObject, thrownMessage]
  · decide

/-- C4 (amended): if the execution capability throws an `Error` whose
message is "network down", the returned record has error "network down",
`result` absent, and the public entry point does not throw; throwing the
bare string value "network down" instead yields error
"Unknown error occurred". -/
theorem C4_network_down (reply : RawReply)
    (h : passesPreconditions reply = true) :
    (∃ r, (createAIToolExecutorTool
        (fun _ => ExecOutcome.thrown (Thrown.errorObj "network down")) reply).1 =
      ExecuteResult.success r ∧
      r.error = some "network down" ∧ r.result = JSValue.undefined) ∧
    (∃ r, (createAIToolExecutorTool
        (fun _ => ExecOutcome.thrown (Thrown.value (JSValue.str "network down"))) reply).1 =
      ExecuteResult.success r ∧
      r.error = some "Unknown error occurred" ∧ r.result = JSValue.undefined) := by
  constructor
  · rw [run_of_passes _ reply h]
    exact ⟨reconcileOutcome reply (ExecOutcome.thrown (Thrown.errorObj "network down")),
      rfl, rfl, rfl⟩
  · rw [run_of_passes _ reply h]
    exact ⟨reconcileOutcome reply
      (ExecOutcome.thrown (Thrown.value (JSValue.str "network down"))), rfl, rfl, rfl⟩

/-- C4 witness: the amended theorem applied to Scenario A's reply. -/
theorem C4_witness :
    passesPreconditions replyA = true ∧
    ((∃ r, (createAIToolExecutorTool
        (fun _ => ExecOutcome.thrown (Thrown.errorObj "network down")) replyA).1 =
      ExecuteResult.success r ∧
      r.error = some "network down" ∧ r.result = JSValue.undefined) ∧
    (∃ r, (createAIToolExecutorTool
        (fun _ => ExecOutcome.thrown (Thrown.value (JSValue.str "network down"))) replyA).1 =
      ExecuteResult.success r ∧
      r.error = some "Unknown error occurred" ∧ r.result = JSValue.undefined)) :=
  ⟨by simp only [passesPreconditions, replyA, jsToString]; decide,
   C4_network_down replyA
     (by simp only [passesPreconditions, replyA, jsToString]; decide)⟩

/-- C5: every returned record satisfies mutual exclusivity — `result` and
`error` are never both set — with `reasoning` and `toolUri` always present
(equal to the coerced reply fields); a record is produced for every
execution outcome once the preconditions pass, and on precondition failure
no record is produced at all: the caller gets a hard failure and the
capability receives zero calls. -/
theorem C5_record_invariants (runTool : ToolCallRequest → ExecOutcome) (reply : RawReply) :
    (∀ r, (createAIToolExecutorTool runTool reply).1 = ExecuteResult.success r →
      (r.result = JSValue.undefined ∨ r.error = none) ∧
      r.reasoning = jsToString reply.reasoning ∧
      r.toolUri = "DYNAMIC::" ++ jsToString reply.toolName) ∧
    (passesPreconditions reply = true →
      ∃ r, (createAIToolExecutorTool runTool reply).1 = ExecuteResult.success r) ∧
    (passesPreconditions reply = false →
      ∃ msg, (createAIToolExecutorTool runTool reply).1 = ExecuteResult.failure msg ∧
        (createAIToolExecutorTool runTool reply).2 = []) := by
  refine ⟨?_, ?_, ?_⟩
  · intro r hr
    obtain ⟨hshape, -⟩ := success_shape runTool reply r hr
    subst hshape
    exact ⟨reconcile_exclusive reply _, reconcile_reasoning reply _,
      reconcile_toolUri reply _⟩
  · intro hp
    rw [run_of_passes runTool reply hp]
    exact ⟨reconcileOutcome reply (runTool (buildToolCallRequest reply)), rfl⟩
  · intro hp
    obtain ⟨msg, hmsg, -⟩ := fail_of_not_passes runTool reply hp
    exact ⟨msg, by rw [hmsg], by rw [hmsg]⟩

/-- C5 witness: the invariants applied to Scenario A's run. -/
theorem C5_witness :
    (createAIToolExecutorTool capListTodos replyA).1 =
      ExecuteResult.success
        { reasoning := "r", toolUri := "DYNAMIC::LIST",
          generatedInput := JSValue.obj [],
          result := JSValue.obj [("todos", JSValue.arr [])], error := none } ∧
    ((JSValue.obj [("todos", JSValue.arr [])] = JSValue.undefined ∨
        (none : Option String) = none) ∧
      "r" = jsToString replyA.reasoning ∧
      "DYNAMIC::LIST" = "DYNAMIC::" ++ jsToString replyA.toolName) := by
  have hrec : (createAIToolExecutorTool capListTodos replyA).1 =
      ExecuteResult.success
        { reasoning := "r", toolUri := "DYNAMIC::LIST",
          generatedInput := JSValue.obj [],
          result := JSValue.obj [("todos", JSValue.arr [])], error := none } := by
    rw [run_of_passes capListTodos replyA
      (by simp only [passesPreconditions, replyA, jsToString]; decide)]
    simp [reconcileOutcome, capListTodos, replyA, jsToString, orEmptyObject, truthy]
  exact ⟨hrec, (C5_record_invariants capListTodos replyA).1 _ hrec⟩

/-- C6 counterexample: a truthy non-object `inputSchema` — the string
"abc" — is not defaulted to the empty object: it is handed to the execution
capability unchanged. -/
theorem C6_counterexample :
    ((createAIToolExecutorTool capOkNull replyStrSchema).2.map
      fun q => q.inputSchema) = [JSValue.str "abc"] ∧
    JSValue.str "abc" ≠ JSValue.obj [] := by
  constructor
  · rw [run_of_passes capOkNull replyStrSchema
      (by simp only [passesPreconditions, replyStrSchema, replyA, jsToString]; decide)]
    simp [buildToolCallRequest, replyStrSchema, replyA, orEmptyObject, truthy]
  · intro h
    exact JSValue.noConfusion h

/-- C6 (amended): `inputSchema` and `outputSchema` are defaulted to the
empty object exactly when the field is falsy (absent, null, false, zero or
the empty string); any truthy value — object or not — passes through
unchanged; the coercion never aborts, and a reply omitting both schemas but
otherwise well-formed proceeds to execution with both schemas equal to the
empty object. -/
theorem C6_schema_defaulting (runTool : ToolCallRequest → ExecOutcome) (reply : RawReply)
    (h : passesPreconditions reply = true) :
    (∃ r, (createAIToolExecutorTool runTool reply).1 = ExecuteResult.success r) ∧
    ((createAIToolExecutorTool runTool reply).2.map fun q => q.inputSchema) =
      [if truthy reply.inputSchema then reply.inputSchema else JSValue.obj []] ∧
    ((createAIToolExecutorTool runTool reply).2.map fun q => q.outputSchema) =
      [if truthy reply.outputSchema then reply.outputSchema else JSValue.obj []] := by
  rw [run_of_passes runTool reply h]
  exact ⟨⟨reconcileOutcome reply (runTool (buildToolCallRequest reply)), rfl⟩,
    by simp [buildToolCallRequest, orEmptyObject],
    by simp [buildToolCallRequest, orEmptyObject]⟩

/-- C6 witness: Scenario D — both schemas absent — proceeds to execution
with both schemas equal to the empty object. -/
theorem C6_witness :
    passesPreconditions replyD = true ∧
    ((∃ r, (createAIToolExecutorTool capOkNull replyD).1 = ExecuteResult.success r) ∧
      ((createAIToolExecutorTool capOkNull replyD).2.map fun q => q.inputSchema) =
        [if truthy replyD.inputSchema then replyD.inputSchema else JSValue.obj []] ∧
      ((createAIToolExecutorTool capOkNull replyD).2.map fun q => q.outputSchema) =
        [if truthy replyD.outputSchema then replyD.outputSchema else JSValue.obj []]) ∧
    (if truthy replyD.inputSchema then replyD.inputSchema else JSValue.obj []) =
      JSValue.obj [] :=
  ⟨by simp only [passesPreconditions, replyD, replyA, jsToString]; decide,
   C6_schema_defaulting capOkNull replyD
     (by simp only [passesPreconditions, replyD, replyA, jsToString]; decide),
   by simp [replyD, replyA, truthy]⟩

/-- C7: on Scenario A's mocked reply with a capability returning the todos
object, the entry point returns exactly the record of the spec — reasoning
"r", toolUri `DYNAMIC::LIST`, empty generated input, the todos result and no
error; and in every returned record `toolUri` is the fixed string
`DYNAMIC::` concatenated with the coerced `toolName`. -/
theorem C7_scenarioA :
    (createAIToolExecutorTool capListTodos replyA).1 =
      ExecuteResult.success
        { reasoning := "r", toolUri := "DYNAMIC::LIST",
          generatedInput := JSValue.obj [],
          result := JSValue.obj [("todos", JSValue.arr [])], error := none } ∧
    ∀ (runTool : ToolCallRequest → ExecOutcome) (reply : RawReply) (r : InvocationRecord),
      (createAIToolExecutorTool runTool reply).1 = ExecuteResult.success r →
      r.toolUri = "DYNAMIC::" ++ jsToString reply.toolName := by
  constructor
  · rw [run_of_passes capListTodos replyA
      (by simp only [passesPreconditions, replyA, jsToString]; decide)]
    simp [reconcileOutcome, capListTodos, replyA, jsToString, orEmptyObject, truthy]
  · intro runTool reply r hr
    obtain ⟨hshape, -⟩ := success_shape runTool reply r hr
    subst hshape
    exact reconcile_toolUri reply _

/-- C7 witness: the scenario record and its toolUri instance. -/
theorem C7_witness :
    (createAIToolExecutorTool capListTodos replyA).1 =
      ExecuteResult.success
        { reasoning := "r", toolUri := "DYNAMIC::LIST",
          generatedInput := JSValue.obj [],
          result := JSValue.obj [("todos", JSValue.arr [])], error := none } ∧
    ("DYNAMIC::LIST" : String) = "DYNAMIC::" ++ jsToString replyA.toolName :=
  ⟨C7_scenarioA.1, C7_scenarioA.2 capListTodos replyA _ C7_scenarioA.1⟩

/-- C8: for every reply whose `executeCode` is a string containing the
required entry-point declaration and whose coerced `toolName` is non-empty,
validation succeeds and the code text handed to the execution capability is
byte-identical to the reply's `executeCode`. -/
theorem C8_code_passed_verbatim (runTool : ToolCallRequest → ExecOutcome)
    (reply : RawReply) (s : String)
    (hs : reply.executeCode = JSValue.str s)
    (hp : strIncludes s requiredEntryPrefix = true)
    (hn : jsToString reply.toolName ≠ "") :
    (∃ r, (createAIToolExecutorTool runTool reply).1 = ExecuteResult.success r) ∧
    ((createAIToolExecutorTool runTool reply).2.map fun q => q.execute) = [s] := by
  have hcode : jsToString reply.executeCode = s := by rw [hs]; simp [jsToString]
  have hfmt : strIncludes s formatCheckNeedle = true := by
    have hpre : listHasPrefix formatCheckNeedle.data requiredEntryPrefix.data = true := by
      decide
    exact listHasInfix_mono _ _ hpre s.data hp
  have hne : s ≠ "" := by
    intro h0
    subst h0
    simp only [strIncludes] at hp
    have := listHasInfix_nil_of_hay_nil requiredEntryPrefix.data hp
    exact absurd this (by decide)
  have hpass : passesPreconditions reply = true := by
    simp only [passesPreconditions, hcode, Bool.and_eq_true, Bool.not_eq_true',
      beq_eq_false_iff_ne, ne_eq]
    exact ⟨⟨hne, hn⟩, hfmt⟩
  rw [run_of_passes runTool reply hpass]
  exact ⟨⟨reconcileOutcome reply (runTool (buildToolCallRequest reply)), rfl⟩,
    by simp [buildToolCallRequest, hcode]⟩

/-- C8 witness: Scenario A's code contains the required declaration and is
handed to the capability byte-identical. -/
theorem C8_witness :
    replyA.executeCode = JSValue.str scenarioACode ∧
    strIncludes scenarioACode requiredEntryPrefix = true ∧
    jsToString replyA.toolName ≠ "" ∧
    ((∃ r, (createAIToolExecutorTool capOkNull replyA).1 = ExecuteResult.success r) ∧
      ((createAIToolExecutorTool capOkNull replyA).2.map fun q => q.execute) =
        [scenarioACode]) :=
  ⟨rfl, by decide, by simp [replyA, jsToString],
   C8_code_passed_verbatim capOkNull replyA scenarioACode rfl (by decide)
     (by simp [replyA, jsToString])⟩

/-- C9 counterexample: when `reasoning` and `toolDescription` are absent,
they are coerced to the string "undefined", not to the empty string — the
record's reasoning and the description handed to the capability are both
"undefined". -/
theorem C9_counterexample :
    replyNoMeta.reasoning = JSValue.undefined ∧
    replyNoMeta.toolDescription = JSValue.undefined ∧
    ((createAIToolExecutorTool capOkNull replyNoMeta).2.map
      fun q => q.description) = ["undefined"] ∧
    (createAIToolExecutorTool capOkNull replyNoMeta).1 =
      ExecuteResult.success
        { reasoning := "undefined", toolUri := "DYNAMIC::LIST",
          generatedInput := JSValue.obj [],
          result := JSValue.null, error := none } ∧
    ("undefined" : String) ≠ "" := by
  refine ⟨rfl, rfl, ?_, ?_, by decide⟩
  · rw [run_of_passes capOkNull replyNoMeta
      (by simp only [passesPreconditions, replyNoMeta, replyA, jsToString]; decide)]
    simp [buildToolCallRequest, replyNoMeta, replyA, jsToString]
  · rw [run_of_passes capOkNull replyNoMeta
      (by simp only [passesPreconditions, replyNoMeta, replyA, jsToString]; decide)]
    simp [reconcileOutcome, capOkNull, replyNoMeta, replyA, jsToString,
      orEmptyObject, truthy]

/-- C9 (amended): `input` is coerced to an object map defaulting to the
empty object when the field is falsy (in particular when missing), while
`reasoning` and `toolDescription` are coerced with `String(...)`, which
yields the string "undefined" — not the empty string — when the field is
missing; no further validation is performed and `input` is never checked
against `inputSchema`: execution proceeds with the coerced values
unchanged. -/
theorem C9_metadata_coercion (runTool : ToolCallRequest → ExecOutcome) (reply : RawReply)
    (h : passesPreconditions reply = true) :
    ((createAIToolExecutorTool runTool reply).2.map fun q => q.input) =
      [if truthy reply.input then reply.input else JSValue.obj []] ∧
    (reply.input = JSValue.undefined →
      ((createAIToolExecutorTool runTool reply).2.map fun q => q.input) =
        [JSValue.obj []]) ∧
    ((createAIToolExecutorTool runTool reply).2.map fun q => q.description) =
      [jsToString reply.toolDescription] ∧
    (reply.toolDescription = JSValue.undefined →
      ((createAIToolExecutorTool runTool reply).2.map fun q => q.description) =
        ["undefined"]) ∧
    (∀ r, (createAIToolExecutorTool runTool reply).1 = ExecuteResult.success r →
      r.reasoning = jsToString reply.reasoning) ∧
    (reply.reasoning = JSValue.undefined →
      ∀ r, (createAIToolExecutorTool runTool reply).1 = ExecuteResult.success r →
        r.reasoning = "undefined") := by
  refine ⟨?_, ?_, ?_, ?_, ?_, ?_⟩
  · rw [run_of_passes runTool reply h]
    simp [buildToolCallRequest, orEmptyObject]
  · intro hi
    rw [run_of_passes runTool reply h]
    simp [buildToolCallRequest, orEmptyObject, hi, truthy]
  · rw [run_of_passes runTool reply h]
    simp [buildToolCallRequest]
  · intro hd
    rw [run_of_passes runTool reply h]
    simp [buildToolCallRequest, hd, jsToString]
  · intro r hr
    obtain ⟨hshape, -⟩ := success_shape runTool reply r hr
    subst hshape
    exact reconcile_reasoning reply _
  · intro hre r hr
    obtain ⟨hshape, -⟩ := success_shape runTool reply r hr
    subst hshape
    rw [reconcile_reasoning reply _, hre]
    simp [jsToString]

/-- C9 witness: the coercion facts applied to the reply with absent
`reasoning` and `toolDescription`. -/
theorem C9_witness :
    passesPreconditions replyNoMeta = true ∧
    (((createAIToolExecutorTool capOkNull replyNoMeta).2.map fun q => q.input) =
        [if truthy replyNoMeta.input then replyNoMeta.input else JSValue.obj []] ∧
      (replyNoMeta.input = JSValue.undefined →
        ((createAIToolExecutorTool capOkNull replyNoMeta).2.map fun q => q.input) =
          [JSValue.obj []]) ∧
      ((createAIToolExecutorTool capOkNull replyNoMeta).2.map fun q => q.description) =
        [jsToString replyNoMeta.toolDescription] ∧
      (replyNoMeta.toolDescription = JSValue.undefined →
        ((createAIToolExecutorTool capOkNull replyNoMeta).2.map fun q => q.description) =
          ["undefined"]) ∧
      (∀ r, (createAIToolExecutorTool capOkNull replyNoMeta).1 = ExecuteResult.success r →
        r.reasoning = jsToString replyNoMeta.reasoning) ∧
      (replyNoMeta.reasoning = JSValue.undefined →
        ∀ r, (createAIToolExecutorTool capOkNull replyNoMeta).1 = ExecuteResult.success r →
          r.reasoning = "undefined")) :=
  ⟨by simp only [passesPreconditions, replyNoMeta, replyA, jsToString]; decide,
   C9_metadata_coercion capOkNull replyNoMeta
     (by simp only [passesPreconditions, replyNoMeta, replyA, jsToString]; decide)⟩

/-- C10: if the execution capability resolves and its outcome's `error`
field is falsy (absent, null or the empty string), the entry point takes the
success branch: the record's `error` is absent and its `result` is the
outcome's `result` field verbatim — so a structured error equal to the empty
string is reported as success, and an outcome with neither `result` nor
`error` yields a record with both absent. -/
theorem C10_falsy_error_success (reply : RawReply) (tr : ToolResult)
    (h : passesPreconditions reply = true) (he : truthy tr.error = false) :
    ∃ r, (createAIToolExecutorTool (fun _ => ExecOutcome.ok tr) reply).1 =
        ExecuteResult.success r ∧
      r.error = none ∧ r.result = tr.result := by
  rw [run_of_passes (fun _ => ExecOutcome.ok tr) reply h]
  refine ⟨reconcileOutcome reply (ExecOutcome.ok tr), rfl, ?_, ?_⟩
  · simp [reconcileOutcome, he]
  · simp [reconcileOutcome, he]

/-- C10 witness: a resolved outcome whose `error` is the empty string and
whose `result` is absent takes the success branch, yielding a record with
both `result` and `error` absent. -/
theorem C10_witness :
    passesPreconditions replyA = true ∧
    truthy (JSValue.str "") = false ∧
    ∃ r, (createAIToolExecutorTool
        (fun _ => ExecOutcome.ok { result := JSValue.undefined, error := JSValue.str "" })
        replyA).1 = ExecuteResult.success r ∧
      r.error = none ∧ r.result = JSValue.undefined :=
  ⟨by simp only [passesPreconditions, replyA, jsToString]; decide,
   by decide,
   C10_falsy_error_success replyA
     { result := JSValue.undefined, error := JSValue.str "" }
     (by simp only [passesPreconditions, replyA, jsToString]; decide)
     (by decide)⟩
